import Mathlib

/-!
Verification of the adaptive market-making decision pipeline.

Shallow embedding of the pricing/decision logic of the repository:
Python Decimal and float arithmetic is embedded over the rationals
(all the quantities the claims touch are exact decimal literals, so the
embedding is value-faithful), pandas Series operations are embedded as
list computations, and values that pandas would turn into NaN are
represented by the absence of a value (Option).

Namespaces mirror the source files:
- CombinedPMM      — hummingbot/strategy/combined_pmm/combined_pmm_strategy.py
- EnhancedMM       — scripts/enhanced_mm_final_fixed.py
- AdvancedPMM      — scripts/advanced_pmm.py
- MyCustomPMM      — scripts/my_custom_pmm.py
- PureMMAdvanced   — hummingbot/strategy/pure_mm_advanced/pure_mm_advanced.py
- Indicators       — scripts/indicators.py
- RiskManager      — scripts/risk_manager.py
-/

namespace CombinedPMM

/-- Sequential two-sided clamp as the source writes it: first
`if x > m: x = m`, then `if x < -m: x = -m` on the possibly updated value.
This pattern appears at lines 134-137 (with m = 0.5), 141-144
(with m = max_shift_spread) and 164-167 (with m = 1) of
combined_pmm_strategy.py. -/
def clampAbs (m x : ℚ) : ℚ :=
  let x1 := if x > m then m else x
  if x1 < -m then -m else x1

/-- Spread from NATR, combined_pmm_strategy.py lines 124-125:
`(latest_natr / 100) * scalar / 10000` where `latest_natr` is the NATR in
percentage points (pandas-ta natr with scalar=100). -/
def spreadFromNatr (natrPct scalar : ℚ) : ℚ :=
  natrPct / 100 * scalar / 10000

/-- Trend offset from RSI, lines 132-137: `(rsi - 50) / 100`, then the
sequential clamp to [-0.5, 0.5]. -/
def trendOffset (rsi : ℚ) : ℚ :=
  clampAbs (1/2) ((rsi - 50) / 100)

/-- Trend price multiplier, lines 139-144: `trend_offset * trend_scalar`,
then the sequential clamp to [-max_shift_spread, max_shift_spread]. -/
def priceMultiplier (rsi trendScalar maxShift : ℚ) : ℚ :=
  clampAbs maxShift (trendOffset rsi * trendScalar)

/-- Current inventory ratio, lines 152-157: `base_value / total_value`
when `total_value > 0`, else the 0.5 default. -/
def currentRatioVal (baseBalance quoteBalance midPrice : ℚ) : ℚ :=
  let baseValue := baseBalance * midPrice
  let totalValue := baseValue + quoteBalance
  if totalValue > 0 then baseValue / totalValue else 1/2

/-- Inventory delta, lines 159-168: `(target - current_ratio) / target`
when `target > 0` (else the 0.0 initialization), then the sequential
clamp to [-1, 1]. -/
def inventoryDelta (target r : ℚ) : ℚ :=
  clampAbs 1 (if target > 0 then (target - r) / target else 0)

/-- Inventory multiplier, lines 170-175: `delta * inventory_scalar`, then
both branches of the sign test multiply by `max_shift_spread` identically. -/
def inventoryMultiplier (delta invScalar maxShift : ℚ) : ℚ :=
  (delta * invScalar) * maxShift

/-- Reference price, line 181: `mid * (1 + price_multiplier) * (1 + inventory_multiplier)`. -/
def referencePrice (mid pm im : ℚ) : ℚ :=
  mid * (1 + pm) * (1 + im)

/-- Order candidate prices, create_order_candidates lines 183-209:
`buy = ref * (1 - bid_spread)` and `sell = ref * (1 + ask_spread)`, then
the maker-safety clamp `buy = min(buy, best_bid)` / `sell = max(sell, best_ask)`
when the corresponding top-of-book price is available. The function is
total: it always returns the pair, there is no rejection path. -/
def createOrderCandidates (ref bidSpread askSpread : ℚ)
    (bestBid bestAsk : Option ℚ) : ℚ × ℚ :=
  let buyPrice := ref * (1 - bidSpread)
  let sellPrice := ref * (1 + askSpread)
  let buyPrice2 := match bestBid with
    | some b => min buyPrice b
    | none => buyPrice
  let sellPrice2 := match bestAsk with
    | some a => max sellPrice a
    | none => sellPrice
  (buyPrice2, sellPrice2)

/-- Constructor normalization of target_base_pct, lines 66-68:
`if target_base_pct > 1: target_base_pct = target_base_pct / 100`. -/
def normalizeTargetBasePct (t : ℚ) : ℚ :=
  if t > 1 then t / 100 else t

/-- Refresh gate, tick_elapsed lines 90-101: zero-initialize
create_timestamp to the current time, then if `now >= create_timestamp`
schedule `now + order_refresh_time` and fire. Returns the new
create_timestamp and whether the cycle fired. -/
def tickElapsed (createTimestamp now refreshTime : ℚ) : ℚ × Bool :=
  let ct := if createTimestamp = 0 then now else createTimestamp
  if now ≥ ct then (now + refreshTime, true) else (ct, false)

/-- Outcome of one on_tick call of combined_pmm_strategy.py. -/
structure CycleResult where
  createTimestamp : ℚ
  indicatorsUpdated : Bool
  ordersPlaced : Bool
  deriving DecidableEq, Repr

/-- on_tick lines 76-88 combined with the early return of
update_indicators_and_parameters lines 106-109: when the refresh gate
fires, orders are cancelled and new candidates are created and placed
unconditionally; only the indicator update is skipped when the candle
frame is empty. -/
def onTick (createTimestamp now refreshTime : ℚ) (dataEmpty : Bool) :
    CycleResult :=
  let r := tickElapsed createTimestamp now refreshTime
  if r.2 then
    { createTimestamp := r.1, indicatorsUpdated := !dataEmpty, ordersPlaced := true }
  else
    { createTimestamp := r.1, indicatorsUpdated := false, ordersPlaced := false }

end CombinedPMM

namespace EnhancedMM

/-- Outcome of one on_tick call of enhanced_mm_final_fixed.py. -/
structure TickResult where
  lastTick : ℚ
  cancelled : Bool
  ordersPlaced : Bool
  deriving DecidableEq, Repr

/-- EnhancedMM.on_tick, enhanced_mm_final_fixed.py lines 50-94: when the
interval has not elapsed, nothing happens; otherwise orders are cancelled
first, indicators fetched, and if `natr > volatility_threshold` the
circuit breaker returns early — note that `last_tick` is updated only at
line 91, after successful order placement, so the halt branch leaves the
refresh timestamp unchanged. -/
def onTick (lastTick now interval natr volatilityThreshold : ℚ) :
    TickResult :=
  if now < lastTick + interval then
    { lastTick := lastTick, cancelled := false, ordersPlaced := false }
  else if natr > volatilityThreshold then
    { lastTick := lastTick, cancelled := true, ordersPlaced := false }
  else
    { lastTick := now, cancelled := true, ordersPlaced := true }

/-- Inventory ratio with epsilon-padded denominator, line 69:
`base*mid / (base*mid + quote + 1e-8)`. -/
def inventoryRatioVal (baseBalance quoteBalance midPrice : ℚ) : ℚ :=
  baseBalance * midPrice /
    (baseBalance * midPrice + quoteBalance + 1/100000000)

/-- Inventory asymmetry, line 70: `1 + ((0.5 - inventory_ratio) * 2)`. -/
def inventoryAsymmetry (r : ℚ) : ℚ :=
  1 + ((1/2 - r) * 2)

end EnhancedMM

namespace AdvancedPMM

/-- calculate_spreads, advanced_pmm.py lines 216-235: volatility, trend
and risk adjustments multiply the base spreads, the inventory asymmetry
skews the two sides, and both results are floored at 0.0001. -/
def calculate_spreads (bidSpreadBase askSpreadBase currentVolatility
    trendScore invRisk riskThreshold invAsymmetry : ℚ) : ℚ × ℚ :=
  let volAdj := 1 + currentVolatility / (1/10)
  let trendAdj := 1 + |trendScore| * (1/2)
  let riskAdj := 1 - min invRisk riskThreshold / riskThreshold
  let bidSpread := bidSpreadBase * volAdj * trendAdj * riskAdj
  let askSpread := askSpreadBase * volAdj * trendAdj * riskAdj
  let bidSpread2 := bidSpread * (2 - invAsymmetry)
  let askSpread2 := askSpread * invAsymmetry
  (max (1/10000) bidSpread2, max (1/10000) askSpread2)

/-- Halt behaviour of active_order_refresh, lines 159-168: when
`current_volatility > emergency_stop_vol` all orders are cancelled and
the method returns before placing any; otherwise orders are cancelled and
replaced. Returns (cancelled, ordersPlaced). -/
def refreshOutcome (currentVolatility emergencyStopVol : ℚ) : Bool × Bool :=
  if currentVolatility > emergencyStopVol then (true, false) else (true, true)

end AdvancedPMM

namespace MyCustomPMM

/-- on_tick of my_custom_pmm.py lines 52-59: the whole cycle body,
including the `create_timestamp = order_refresh_time + now` update, runs
only when `create_timestamp <= now` and the candle feed is ready.
Returns the new create_timestamp and whether orders were placed. -/
def onTick (createTimestamp now refreshTime : ℚ) (candlesReady : Bool) :
    ℚ × Bool :=
  if createTimestamp ≤ now ∧ candlesReady = true then
    (refreshTime + now, true)
  else
    (createTimestamp, false)

end MyCustomPMM

namespace PureMMAdvanced

/-- Successive differences of a price series, as np.diff produces them. -/
def diffList (prices : List ℚ) : List ℚ :=
  List.zipWith (fun a b => b - a) prices prices.tail

/-- Last n elements of a list, as the python slice `xs[-n:]`. -/
def lastN (n : ℕ) (xs : List ℚ) : List ℚ :=
  xs.drop (xs.length - n)

/-- Average gain of rsi, pure_mm_advanced.py line 124:
`deltas[deltas > 0].sum() / period` over the deltas of the last
`period + 1` prices. -/
def ups (prices : List ℚ) (period : ℕ) : ℚ :=
  ((diffList (lastN (period + 1) prices)).filter (fun d => d > 0)).sum
    / (period : ℚ)

/-- Average loss of rsi, line 125: `-deltas[deltas < 0].sum() / period`. -/
def downs (prices : List ℚ) (period : ℕ) : ℚ :=
  -(((diffList (lastN (period + 1) prices)).filter (fun d => d < 0)).sum)
    / (period : ℚ)

/-- rsi, pure_mm_advanced.py lines 120-129: None when fewer than
`period + 1` prices are available, 100 when the average loss is exactly
zero (the explicit `if downs == 0: return 100` saturation branch), and
otherwise `100 - 100 / (1 + ups / downs)`. -/
def rsi (prices : List ℚ) (period : ℕ) : Option ℚ :=
  if prices.length < period + 1 then none
  else if downs prices period = 0 then some 100
  else some (100 - 100 / (1 + ups prices period / downs prices period))

end PureMMAdvanced

namespace Indicators

/-- TrendAnalyzer.rsi of scripts/indicators.py lines 25-33, evaluated at
the last index of the returned series, under pandas float semantics.
`prices.diff()` has NaN at index 0; `delta.where(delta > 0, 0)` and
`-delta.where(delta < 0, 0)` replace that NaN (and the out-of-sign
entries) by 0, so the gain/loss series start with 0. The rolling mean of
width `window` at the last index exists only when the series has at least
`window` entries. The division `avg_gain / avg_loss` with `avg_loss = 0`
yields +inf when `avg_gain > 0` (and then `100 - 100/(1 + inf) = 100`
exactly) and NaN when `avg_gain = 0`; a NaN result is modelled as none. -/
def rsiLast (prices : List ℚ) (window : ℕ) : Option ℚ :=
  let ds := PureMMAdvanced.diffList prices
  let gains := 0 :: ds.map (fun d => if d > 0 then d else 0)
  let losses := 0 :: ds.map (fun d => if d < 0 then -d else 0)
  if gains.length < window then none
  else
    let avgGain := (gains.drop (gains.length - window)).sum / (window : ℚ)
    let avgLoss := (losses.drop (losses.length - window)).sum / (window : ℚ)
    if avgLoss = 0 then
      (if avgGain = 0 then none else some 100)
    else some (100 - 100 / (1 + avgGain / avgLoss))

end Indicators

namespace RiskManager

/-- InventoryManager.get_skew_factor, risk_manager.py lines 15-17:
`(max_inventory - current_position) / max_inventory`. -/
def get_skew_factor (maxInventory currentPosition : ℚ) : ℚ :=
  (maxInventory - currentPosition) / maxInventory

end RiskManager

/-- Helper: the sequential two-sided clamp stays within [-m, m] whenever
the bound m is nonnegative. -/
theorem clampAbs_abs_le (m x : ℚ) (hm : 0 ≤ m) :
    |CombinedPMM.clampAbs m x| ≤ m := by
  rw [abs_le]
  simp only [CombinedPMM.clampAbs]
  split_ifs <;> constructor <;> linarith

/-- Claim C1, counterexample: with reference price 100, bid spread -1/2,
ask spread -1/2 and no top-of-book, create_order_candidates emits the
pair (150, 50) — a crossed bid/ask pair (ask strictly below bid) — and
raises nothing: no CrossedBookError mechanism exists in the code. -/
theorem C1_counterexample :
    (CombinedPMM.createOrderCandidates 100 (-(1/2)) (-(1/2)) none none).2
      < (CombinedPMM.createOrderCandidates 100 (-(1/2)) (-(1/2)) none none).1 := by
  norm_num [CombinedPMM.createOrderCandidates]

/-- Claim C1, amended: for every nonnegative reference price, nonnegative
bid/ask spreads, and every top-of-book state, the emitted pair satisfies
bid_price ≤ ask_price; the maker-safety clamp (bid capped at best bid,
ask floored at best ask) can only lower the bid and raise the ask, so it
never inverts an uncrossed pair, and no CrossedBookError path exists or
is needed. -/
theorem C1_theorem (ref bidSpread askSpread : ℚ) (bestBid bestAsk : Option ℚ)
    (href : 0 ≤ ref) (hbs : 0 ≤ bidSpread) (has : 0 ≤ askSpread) :
    (CombinedPMM.createOrderCandidates ref bidSpread askSpread bestBid bestAsk).1
      ≤ (CombinedPMM.createOrderCandidates ref bidSpread askSpread bestBid bestAsk).2 := by
  have h1 : ref * (1 - bidSpread) ≤ ref * (1 + askSpread) := by nlinarith
  unfold CombinedPMM.createOrderCandidates
  cases bestBid with
  | none =>
    cases bestAsk with
    | none => exact h1
    | some a => exact le_trans h1 (le_max_left _ _)
  | some b =>
    cases bestAsk with
    | none => exact le_trans (min_le_left _ _) h1
    | some a => exact le_trans (min_le_left _ _) (le_trans h1 (le_max_left _ _))

/-- Claim C1, witness for the amended theorem at reference price 100,
spreads 1/100, top-of-book (99, 101). -/
theorem C1_witness :
    (0:ℚ) ≤ 100 ∧ (0:ℚ) ≤ 1/100 ∧
    (CombinedPMM.createOrderCandidates 100 (1/100) (1/100) (some 99) (some 101)).1
      ≤ (CombinedPMM.createOrderCandidates 100 (1/100) (1/100) (some 99) (some 101)).2 :=
  ⟨by norm_num, by norm_num,
    C1_theorem 100 (1/100) (1/100) (some 99) (some 101)
      (by norm_num) (by norm_num) (by norm_num)⟩

/-- Claim C2, counterexample: at last_tick 0, now 100, interval 15,
natr 1/4 and threshold 1/5 the halt branch of EnhancedMM.on_tick fires:
orders are cancelled and none placed, but last_tick stays 0 — it is not
set to now + interval = 115, so the refresh time is not advanced. -/
theorem C2_counterexample :
    EnhancedMM.onTick 0 100 15 (1/4) (1/5)
      = { lastTick := 0, cancelled := true, ordersPlaced := false } ∧
    (0 : ℚ) ≠ 100 + 15 := by
  constructor
  · norm_num [EnhancedMM.onTick]
  · norm_num

/-- Claim C2, amended: on any elapsed refresh cycle where volatility
exceeds the stop threshold, existing orders are cancelled and no new
orders are emitted, but the refresh timestamp is left unchanged
(EnhancedMM updates last_tick only after successful placement), so the
halt is re-evaluated on the very next tick rather than after one refresh
interval; AdvancedPMM's event-driven refresh likewise cancels and
returns without placing orders. -/
theorem C2_theorem (lastTick now interval natr threshold : ℚ)
    (helapsed : lastTick + interval ≤ now) (hvol : threshold < natr) :
    EnhancedMM.onTick lastTick now interval natr threshold
      = { lastTick := lastTick, cancelled := true, ordersPlaced := false } ∧
    AdvancedPMM.refreshOutcome natr threshold = (true, false) := by
  constructor
  · unfold EnhancedMM.onTick
    rw [if_neg (by linarith), if_pos (by linarith)]
  · unfold AdvancedPMM.refreshOutcome
    rw [if_pos (by linarith)]

/-- Claim C2, witness for the amended theorem at last_tick 40, now 50,
interval 10, natr 1/4, threshold 1/5. -/
theorem C2_witness :
    ((40 : ℚ) + 10 ≤ 50 ∧ (1:ℚ)/5 < 1/4) ∧
    (EnhancedMM.onTick 40 50 10 (1/4) (1/5)
      = { lastTick := 40, cancelled := true, ordersPlaced := false } ∧
     AdvancedPMM.refreshOutcome (1/4) (1/5) = (true, false)) :=
  ⟨⟨by norm_num, by norm_num⟩,
    C2_theorem 40 50 10 (1/4) (1/5) (by norm_num) (by norm_num)⟩

/-- Claim C3: evaluating the embedded spread and shift formulas at the
claimed inputs (NATR = 1.5 percentage points, i.e. volatility 0.015,
scalars 120 and 60, momentum 70, trend_scalar -1, max shift 0.0001): the
code produces bid_spread = 9/50000 = 0.00018 and
ask_spread = 9/100000 = 0.00009 — a tenth of the 0.0018 and 0.0009 that
the claim (and the code's own comment at lines 126-128) state — while
the trend part matches: raw trend offset 1/5 = 0.20 and price shift
-0.20 clamped to -0.0001. -/
theorem C3_theorem :
    CombinedPMM.spreadFromNatr (3/2) 120 = 9/50000 ∧
    CombinedPMM.spreadFromNatr (3/2) 60 = 9/100000 ∧
    (9 : ℚ)/50000 ≠ 18/10000 ∧
    (9 : ℚ)/100000 ≠ 9/10000 ∧
    CombinedPMM.trendOffset 70 = 1/5 ∧
    CombinedPMM.priceMultiplier 70 (-1) (1/10000) = -(1/10000) := by
  refine ⟨?_, ?_, ?_, ?_, ?_, ?_⟩ <;>
    norm_num [CombinedPMM.spreadFromNatr, CombinedPMM.trendOffset,
      CombinedPMM.priceMultiplier, CombinedPMM.clampAbs]

/-- Claim C4, counterexample: with deviation 1 (which lies in [-1, 1]),
inventory_scalar 2 and max_price_shift 1/10000, the inventory shift is
2/10000, strictly exceeding max_price_shift — the code applies no clamp
to the inventory multiplier. -/
theorem C4_counterexample :
    (-1 : ℚ) ≤ 1 ∧ (1 : ℚ) ≤ 1 ∧
    (1 : ℚ)/10000 < |CombinedPMM.inventoryMultiplier 1 2 (1/10000)| := by
  refine ⟨by norm_num, by norm_num, ?_⟩
  have h : CombinedPMM.inventoryMultiplier 1 2 (1/10000) = 1/5000 := by
    norm_num [CombinedPMM.inventoryMultiplier]
  rw [h, abs_of_pos (by norm_num)]
  norm_num

/-- Claim C4, amended: for every momentum value and trend_scalar the
trend price shift satisfies |price_shift| ≤ max_price_shift (the code
clamps it), provided max_price_shift ≥ 0; the inventory shift satisfies
the same bound for deviation in [-1, 1] only under the additional
hypothesis |inventory_scalar| ≤ 1, because the code computes
deviation * inventory_scalar * max_price_shift without clamping. -/
theorem C4_theorem (rsi trendScalar maxShift delta invScalar : ℚ)
    (hm : 0 ≤ maxShift) (hd1 : -1 ≤ delta) (hd2 : delta ≤ 1)
    (hs : |invScalar| ≤ 1) :
    |CombinedPMM.priceMultiplier rsi trendScalar maxShift| ≤ maxShift ∧
    |CombinedPMM.inventoryMultiplier delta invScalar maxShift| ≤ maxShift := by
  constructor
  · exact clampAbs_abs_le maxShift _ hm
  · unfold CombinedPMM.inventoryMultiplier
    have hd : |delta| ≤ 1 := abs_le.mpr ⟨hd1, hd2⟩
    have h1 : |delta * invScalar * maxShift| = |delta| * |invScalar| * maxShift := by
      rw [abs_mul, abs_mul, abs_of_nonneg hm]
    rw [h1]
    have hA : 0 ≤ (1 - |delta|) * (|invScalar| * maxShift) :=
      mul_nonneg (by linarith) (mul_nonneg (abs_nonneg invScalar) hm)
    have hB : 0 ≤ (1 - |invScalar|) * maxShift :=
      mul_nonneg (by linarith) hm
    nlinarith [hA, hB]

/-- Claim C4, witness for the amended theorem at momentum 70,
trend_scalar -1, max shift 1/10000, deviation 1/2, inventory_scalar 1. -/
theorem C4_witness :
    ((0:ℚ) ≤ 1/10000 ∧ (-1:ℚ) ≤ 1/2 ∧ (1:ℚ)/2 ≤ 1 ∧ |(1:ℚ)| ≤ 1) ∧
    (|CombinedPMM.priceMultiplier 70 (-1) (1/10000)| ≤ 1/10000 ∧
     |CombinedPMM.inventoryMultiplier (1/2) 1 (1/10000)| ≤ 1/10000) :=
  ⟨⟨by norm_num, by norm_num, by norm_num, by norm_num⟩,
    C4_theorem 70 (-1) (1/10000) (1/2) 1
      (by norm_num) (by norm_num) (by norm_num) (by norm_num)⟩

/-- Claim C5, counterexample: in my_custom_pmm.on_tick with
create_timestamp 0, now 100, refresh 15 and an unready candle feed, the
cycle is skipped but create_timestamp stays 0 instead of being advanced
to 115 — the scheduler does not advance the refresh time on an unready
feed. -/
theorem C5_counterexample :
    MyCustomPMM.onTick 0 100 15 false = (0, false) ∧ (0 : ℚ) ≠ 100 + 15 := by
  constructor
  · simp [MyCustomPMM.onTick]
  · norm_num

/-- Claim C5, amended: combined_pmm's tick_elapsed advances the refresh
timestamp whenever the gate fires, independent of data readiness, and
only the indicator update is skipped on an empty candle frame — order
creation still runs; my_custom_pmm instead skips the entire cycle body,
including the refresh-timestamp update, when the feed is not ready, so
it re-checks on every tick. -/
theorem C5_theorem (createTs now refresh : ℚ) (dataEmpty : Bool)
    (hne : createTs ≠ 0) (hle : createTs ≤ now) :
    CombinedPMM.onTick createTs now refresh dataEmpty
      = { createTimestamp := now + refresh, indicatorsUpdated := !dataEmpty,
          ordersPlaced := true } ∧
    MyCustomPMM.onTick createTs now refresh false = (createTs, false) := by
  constructor
  · have h2 : now ≥ createTs := hle
    simp [CombinedPMM.onTick, CombinedPMM.tickElapsed, hne, h2]
  · simp [MyCustomPMM.onTick]

/-- Claim C5, witness for the amended theorem at create_timestamp 5,
now 100, refresh 15, empty data frame. -/
theorem C5_witness :
    ((5 : ℚ) ≠ 0 ∧ (5 : ℚ) ≤ 100) ∧
    (CombinedPMM.onTick 5 100 15 true
      = { createTimestamp := 100 + 15, indicatorsUpdated := false,
          ordersPlaced := true } ∧
     MyCustomPMM.onTick 5 100 15 false = (5, false)) :=
  ⟨⟨by norm_num, by norm_num⟩, by
    have h := C5_theorem 5 100 15 true (by norm_num) (by norm_num)
    simpa using h⟩

/-- Claim C6, counterexample: with both balances zero,
enhanced_mm_final_fixed (a cited source of the claim) computes
inventory_ratio = 0 — not the neutral 0.5 — through its epsilon-padded
denominator, and the resulting inventory_asymmetry is 2, so full
spread asymmetry is applied that cycle. -/
theorem C6_counterexample :
    EnhancedMM.inventoryRatioVal 0 0 100 = 0 ∧ (0 : ℚ) ≠ 1/2 ∧
    EnhancedMM.inventoryAsymmetry (EnhancedMM.inventoryRatioVal 0 0 100) = 2 := by
  norm_num [EnhancedMM.inventoryRatioVal, EnhancedMM.inventoryAsymmetry]

/-- Claim C6, amended: with zero total portfolio value, combined_pmm
defaults current_ratio to 0.5, and the deviation is 0 (hence zero
inventory shift) when target_base_pct is the default 0.5; for other
targets the deviation is (target - 0.5)/target, e.g. 3/8 at target 0.8,
so skew is applied; enhanced_mm_final_fixed's epsilon-padded ratio
instead evaluates to 0 rather than 0.5. -/
theorem C6_theorem (mid invScalar maxShift : ℚ) :
    CombinedPMM.currentRatioVal 0 0 mid = 1/2 ∧
    CombinedPMM.inventoryDelta (1/2) (CombinedPMM.currentRatioVal 0 0 mid) = 0 ∧
    CombinedPMM.inventoryMultiplier
      (CombinedPMM.inventoryDelta (1/2) (CombinedPMM.currentRatioVal 0 0 mid))
      invScalar maxShift = 0 ∧
    CombinedPMM.inventoryDelta (4/5) (CombinedPMM.currentRatioVal 0 0 mid) = 3/8 ∧
    EnhancedMM.inventoryRatioVal 0 0 mid = 0 := by
  have h : CombinedPMM.currentRatioVal 0 0 mid = 1/2 := by
    simp [CombinedPMM.currentRatioVal]
  have hd : CombinedPMM.inventoryDelta (1/2) (1/2) = 0 := by
    norm_num [CombinedPMM.inventoryDelta, CombinedPMM.clampAbs]
  refine ⟨h, ?_, ?_, ?_, ?_⟩
  · rw [h, hd]
  · rw [h, hd]
    simp [CombinedPMM.inventoryMultiplier]
  · rw [h]
    norm_num [CombinedPMM.inventoryDelta, CombinedPMM.clampAbs]
  · simp [EnhancedMM.inventoryRatioVal]

/-- Claim C7, counterexample: combined_pmm (a cited source of the claim)
applies no epsilon floor: at zero volatility (NATR = 0) with scalar 120
the computed bid_spread is exactly 0, below the 1e-4 floor the claim
asserts. -/
theorem C7_counterexample :
    CombinedPMM.spreadFromNatr 0 120 = 0 ∧ (0 : ℚ) < 1/10000 := by
  norm_num [CombinedPMM.spreadFromNatr]

/-- Claim C7, amended: advanced_pmm's calculate_spreads floors both
returned spreads at 1e-4 for all inputs; combined_pmm applies no floor —
its spreads are merely nonnegative for nonnegative NATR and scalar, and
are exactly zero at zero volatility. -/
theorem C7_theorem (bsB asB vol trend invRisk riskTh asym natr scalar : ℚ)
    (hn : 0 ≤ natr) (hs : 0 ≤ scalar) :
    (1/10000 : ℚ)
      ≤ (AdvancedPMM.calculate_spreads bsB asB vol trend invRisk riskTh asym).1 ∧
    (1/10000 : ℚ)
      ≤ (AdvancedPMM.calculate_spreads bsB asB vol trend invRisk riskTh asym).2 ∧
    0 ≤ CombinedPMM.spreadFromNatr natr scalar := by
  refine ⟨?_, ?_, ?_⟩
  · simp only [AdvancedPMM.calculate_spreads]
    exact le_max_left _ _
  · simp only [AdvancedPMM.calculate_spreads]
    exact le_max_left _ _
  · unfold CombinedPMM.spreadFromNatr
    exact div_nonneg (mul_nonneg (div_nonneg hn (by norm_num)) hs) (by norm_num)

/-- Claim C7, witness for the amended theorem at base spreads 1/500,
volatility 1/20, trend score 1/2, inventory risk 1/10, risk threshold
3/10, asymmetry 1, NATR 3/2, scalar 120. -/
theorem C7_witness :
    ((0 : ℚ) ≤ 3/2 ∧ (0 : ℚ) ≤ 120) ∧
    ((1/10000 : ℚ)
        ≤ (AdvancedPMM.calculate_spreads (1/500) (1/500) (1/20) (1/2) (1/10) (3/10) 1).1 ∧
     (1/10000 : ℚ)
        ≤ (AdvancedPMM.calculate_spreads (1/500) (1/500) (1/20) (1/2) (1/10) (3/10) 1).2 ∧
     0 ≤ CombinedPMM.spreadFromNatr (3/2) 120) :=
  ⟨⟨by norm_num, by norm_num⟩,
    C7_theorem (1/500) (1/500) (1/20) (1/2) (1/10) (3/10) 1 (3/2) 120
      (by norm_num) (by norm_num)⟩

/-- Claim C8, counterexample: on a flat window of 15 equal closes, the
average of negative deltas is exactly zero, yet TrendAnalyzer.rsi of
scripts/indicators.py (a cited source of the claim) produces no value
(0/0 is NaN under pandas semantics) instead of 100, while
pure_mm_advanced's rsi on the same window returns its explicit
saturation value 100. -/
theorem C8_counterexample :
    Indicators.rsiLast [1, 1, 1, 1, 1, 1, 1, 1, 1, 1, 1, 1, 1, 1, 1] 14 = none ∧
    PureMMAdvanced.rsi [1, 1, 1, 1, 1, 1, 1, 1, 1, 1, 1, 1, 1, 1, 1] 14 = some 100 := by
  constructor
  · norm_num [Indicators.rsiLast, PureMMAdvanced.diffList]
  · norm_num [PureMMAdvanced.rsi, PureMMAdvanced.downs, PureMMAdvanced.diffList,
      PureMMAdvanced.lastN]

/-- Claim C8, amended: pure_mm_advanced's rsi, on any window with at
least period + 1 prices, returns 100 whenever its average loss is
exactly zero (the explicit saturation branch, no division performed) and
otherwise returns 100 - 100/(1 + rs) with rs the gain/loss ratio;
TrendAnalyzer.rsi in scripts/indicators.py, by contrast, divides by the
zero average loss and yields 100 only through the float infinity, with
no value at all on a fully flat window. -/
theorem C8_theorem (prices : List ℚ) (period : ℕ)
    (hlen : period + 1 ≤ prices.length) :
    (PureMMAdvanced.downs prices period = 0 →
      PureMMAdvanced.rsi prices period = some 100) ∧
    (PureMMAdvanced.downs prices period ≠ 0 →
      PureMMAdvanced.rsi prices period
        = some (100 - 100 /
            (1 + PureMMAdvanced.ups prices period / PureMMAdvanced.downs prices period))) := by
  unfold PureMMAdvanced.rsi
  rw [if_neg (by omega)]
  constructor
  · intro h
    rw [if_pos h]
  · intro h
    rw [if_neg h]

/-- Claim C8, witness for the amended theorem on the window [1, 1, 1]
with period 2, whose average loss is zero. -/
theorem C8_witness :
    (2 + 1 ≤ ([1, 1, 1] : List ℚ).length ∧
      PureMMAdvanced.downs [1, 1, 1] 2 = 0) ∧
    PureMMAdvanced.rsi [1, 1, 1] 2 = some 100 :=
  ⟨⟨by norm_num, by norm_num [PureMMAdvanced.downs, PureMMAdvanced.diffList,
      PureMMAdvanced.lastN]⟩,
    (C8_theorem [1, 1, 1] 2 (by norm_num)).1
      (by norm_num [PureMMAdvanced.downs, PureMMAdvanced.diffList,
        PureMMAdvanced.lastN])⟩

/-- Claim C9: for max_inventory > 0, get_skew_factor returns exactly
(max_inventory - current_position)/max_inventory, a flat position yields
+1 (not a neutral 0), and the result lies in [-1, 1] precisely when
0 ≤ current_position ≤ 2 * max_inventory. -/
theorem C9_theorem (maxInventory pos : ℚ) (h : 0 < maxInventory) :
    RiskManager.get_skew_factor maxInventory pos
        = (maxInventory - pos) / maxInventory ∧
    RiskManager.get_skew_factor maxInventory 0 = 1 ∧
    ((-1 ≤ RiskManager.get_skew_factor maxInventory pos ∧
        RiskManager.get_skew_factor maxInventory pos ≤ 1)
      ↔ (0 ≤ pos ∧ pos ≤ 2 * maxInventory)) := by
  refine ⟨rfl, ?_, ?_⟩
  · unfold RiskManager.get_skew_factor
    rw [sub_zero, div_self (ne_of_gt h)]
  · unfold RiskManager.get_skew_factor
    rw [div_le_one h, le_div_iff₀ h]
    constructor
    · rintro ⟨h1, h2⟩
      constructor <;> nlinarith
    · rintro ⟨h1, h2⟩
      constructor <;> nlinarith

/-- Claim C9, witness at max_inventory 2, current_position 1. -/
theorem C9_witness :
    (0 : ℚ) < 2 ∧
    (RiskManager.get_skew_factor 2 1 = (2 - 1) / 2 ∧
     RiskManager.get_skew_factor 2 0 = 1 ∧
     ((-1 ≤ RiskManager.get_skew_factor 2 1 ∧
        RiskManager.get_skew_factor 2 1 ≤ 1)
       ↔ ((0 : ℚ) ≤ 1 ∧ (1 : ℚ) ≤ 2 * 2))) :=
  ⟨by norm_num, C9_theorem 2 1 (by norm_num)⟩

/-- Claim C10: the constructor normalization replaces a percentage-style
target_base_pct > 1 by target_base_pct/100, leaves a value ≤ 1
unchanged, and for any percentage value in (1, 100] the normalized
target is a fraction ≤ 1. -/
theorem C10_theorem (t : ℚ) :
    (1 < t → CombinedPMM.normalizeTargetBasePct t = t / 100) ∧
    (t ≤ 1 → CombinedPMM.normalizeTargetBasePct t = t) ∧
    (1 < t → t ≤ 100 → CombinedPMM.normalizeTargetBasePct t ≤ 1) := by
  unfold CombinedPMM.normalizeTargetBasePct
  refine ⟨fun h => if_pos h, fun h => if_neg (not_lt.mpr h), fun h1 h2 => ?_⟩
  rw [if_pos h1, div_le_one (by norm_num)]
  linarith

/-- Claim C10, witness at the percentage-style value 50 and the
fractional value 1/2. -/
theorem C10_witness :
    ((1 : ℚ) < 50 ∧ CombinedPMM.normalizeTargetBasePct 50 = 50 / 100) ∧
    ((1 : ℚ)/2 ≤ 1 ∧ CombinedPMM.normalizeTargetBasePct (1/2) = 1/2) :=
  ⟨⟨by norm_num, (C10_theorem 50).1 (by norm_num)⟩,
   ⟨by norm_num, (C10_theorem (1/2)).2.1 (by norm_num)⟩⟩
